import Mathlib

/-!
Verification of the DataVex Intelligence frontend (`frontend/src/App.jsx`,
the two-mode variant) and of the spec-described backend lead pipeline.

The React component state is embedded as an explicit record `AppState`;
the async handlers `handleSubmit` and `handleGenerateEmail` become pure
state transformers parameterised by the outcome of the single HTTP call
they perform.  Rendering code is embedded as functions from the stored
result to a small abstract render description.  The backend pipeline
(EnterpriseGuard, LeadSynthesizer) is not part of the frontend sources
and is modelled from the spec where indicated.
-/

namespace DataVex

/-- The UI mode: `'campaign'` or `'single'` in the source. -/
inductive Mode
  | campaign
  | single
deriving DecidableEq, Repr

/-- A campaign lead as consumed by the frontend: `{ name, domain, why_we_help }`. -/
structure Lead where
  name : String
  domain : String
  why_we_help : String
deriving DecidableEq, Repr

/-- Verdict object of a deep-analysis response.  Every field is optional
because the JSX reads them through optional chaining (`verdict?.score`). -/
structure Verdict where
  recommendation : Option String
  score : Option Int
  justification : Option String
  size_flag : Option String
deriving DecidableEq, Repr

/-- Company dossier of a deep-analysis response. -/
structure Dossier where
  title : Option String
  domain : Option String
  industry : Option String
  summary : Option String
  estimated_tech_stack : Option (List String)
  company_stage : Option String
  company_size : Option String
  analysis_timestamp : Option String
deriving DecidableEq, Repr

/-- Strategic-analysis object of a deep-analysis response. -/
structure StrategicAnalysis where
  why_now : Option String
  pain_points : Option (List String)
  datavex_service_match : Option String
deriving DecidableEq, Repr

/-- Outreach-strategy object of a deep-analysis response. -/
structure OutreachStrategy where
  target_role : Option String
  subject_line : Option String
  custom_pitch : Option String
deriving DecidableEq, Repr

/-- Body of a successful `/analyze` or `/deep_analyze` response (`res.data`).
Campaign responses populate `leads`; deep-analysis responses populate the
dossier/verdict fields; the fields a given response does not carry are `none`. -/
structure ResponseData where
  agent_trace : List String
  leads : Option (List Lead)
  company_dossier : Option Dossier
  strategic_analysis : Option StrategicAnalysis
  verdict : Option Verdict
  outreach_strategy : Option OutreachStrategy
deriving DecidableEq, Repr

/-- What `setResult({ ...res.data, mode })` stores: the response data plus the
mode that was active when the request was made. -/
structure StoredResult where
  data : ResponseData
  mode : Mode
deriving DecidableEq, Repr

/-- The React component state of `App`.  The JS objects `emails` and
`emailLoading` (keyed by lead index) are embedded as total functions with
default values `none` / `false`, matching absent keys. -/
structure AppState where
  mode : Mode
  domain : String
  serviceCategory : String
  loading : Bool
  result : Option StoredResult
  error : Option String
  trace : List String
  emails : Nat → Option String
  emailLoading : Nat → Bool

/-- The fixed category list rendered as the only options of the select. -/
def SERVICE_CATEGORIES : List String :=
  ["Application Development",
   "AI & Data Analytics",
   "Cloud & DevOps",
   "Digital Transformation"]

/-- The `useState` initial values of the component. -/
def initialState : AppState :=
  { mode := Mode.campaign
    domain := ""
    serviceCategory := "Application Development"
    loading := false
    result := none
    error := none
    trace := []
    emails := fun _ => none
    emailLoading := fun _ => false }

/-- The first trace entry set by `handleSubmit`. -/
def initTraceMsg : String := "Initializing autonomous intelligence engine..."

/-- The validation message for a missing domain in single mode. -/
def domainValidationMsg : String := "Please enter a valid domain (e.g., example.com)"

/-- The fallback error when the request fails without a server detail. -/
def submitFallbackMsg : String := "Failed to execute request. Is the backend running?"

/-- The request body `handleSubmit` posts: `/analyze { service_category }` in
campaign mode, `/deep_analyze { domain, service_category }` in single mode. -/
inductive ApiRequest
  | analyze (service_category : String)
  | deep_analyze (domain : String) (service_category : String)
deriving DecidableEq, Repr

/-- The request body posted by `handleGenerateEmail` — exactly four fields,
mirroring the object literal in the source. -/
structure EmailRequest where
  company_name : String
  domain : String
  why_we_help : String
  service_category : String
deriving DecidableEq, Repr

/-- Outcome of the awaited axios call in `handleSubmit`: either the response
data, or a thrown error carrying `err.response?.data?.detail` when present. -/
inductive HttpOutcome
  | success (data : ResponseData)
  | failure (detail : Option String)
deriving Repr

/-- Outcome of the awaited axios call in `handleGenerateEmail`. -/
inductive EmailOutcome
  | success (email_body : String) (subject_line : String)
  | failure
deriving DecidableEq, Repr

/-- JS `a || fallback` for an optional string: `undefined`, missing and the
empty string are falsy and select the fallback. -/
def jsStringOr : Option String → String → String
  | some s, fallback => if s = "" then fallback else s
  | none, fallback => fallback

/-- JS `String.prototype.trim`: the string with leading and trailing
whitespace removed. -/
def jsTrim (s : String) : String :=
  String.mk (((s.toList.dropWhile Char.isWhitespace).reverse.dropWhile
    Char.isWhitespace).reverse)

/-- The guard `mode === 'single' && !domain.trim()` at the top of
`handleSubmit` (an empty trimmed string is falsy). -/
def validationFails (s : AppState) : Bool :=
  decide (s.mode = Mode.single) && decide (jsTrim s.domain = "")

/-- Which request body `handleSubmit` posts, as a function of the state. -/
def buildSubmitRequest (s : AppState) : ApiRequest :=
  if s.mode = Mode.campaign then ApiRequest.analyze s.serviceCategory
  else ApiRequest.deep_analyze s.domain s.serviceCategory

/-- `handleSubmit` as a state transformer.  Returns the final state together
with the request that was posted (`none` when the validation guard made the
handler return before any HTTP request).  On the request path the state is
first reset (`loading := true`, `error/result := null`,
`trace := [initTraceMsg]`); on success each `agent_trace` element is appended
in order and the result is stored with the active mode; on failure the error
message is stored; `finally` clears `loading`. -/
def handleSubmit (s : AppState) (outcome : HttpOutcome) : AppState × Option ApiRequest :=
  if validationFails s then
    ({ s with error := some domainValidationMsg }, none)
  else
    let s1 : AppState :=
      { s with loading := true, error := none, result := none, trace := [initTraceMsg] }
    match outcome with
    | HttpOutcome.success data =>
        let s2 : AppState := { s1 with trace := s1.trace ++ data.agent_trace }
        let s3 : AppState := { s2 with result := some { data := data, mode := s1.mode } }
        ({ s3 with loading := false }, some (buildSubmitRequest s1))
    | HttpOutcome.failure detail =>
        ({ s1 with error := some (jsStringOr detail submitFallbackMsg),
                   loading := false }, some (buildSubmitRequest s1))

/-- The object literal posted by `handleGenerateEmail`. -/
def buildEmailRequest (s : AppState) (lead : Lead) : EmailRequest :=
  { company_name := lead.name
    domain := lead.domain
    why_we_help := lead.why_we_help
    service_category := s.serviceCategory }

/-- `handleGenerateEmail` as a state transformer: sets `emailLoading[index]`
to `true`, posts the request, on success stores `res.data.email_body` under
`emails[index]` (on failure only an alert is shown, no state change), and
`finally` sets `emailLoading[index]` to `false`.  Returns the final state and
the posted request body. -/
def handleGenerateEmail (s : AppState) (lead : Lead) (index : Nat)
    (outcome : EmailOutcome) : AppState × EmailRequest :=
  let s1 : AppState :=
    match outcome with
    | EmailOutcome.success body _ =>
        { s with emails := fun k => if k = index then some body else s.emails k }
    | EmailOutcome.failure => s
  ({ s1 with emailLoading := fun k => if k = index then false else s.emailLoading k },
   buildEmailRequest s lead)

/-- Abstract description of what `renderCampaignResults` renders. -/
inductive CampaignRender
  | noLeadsNotice
  | leadList (leads : List Lead)
deriving DecidableEq, Repr

/-- `renderCampaignResults`: the notice branch is taken when
`!result.leads || result.leads.length === 0`; otherwise one card per lead. -/
def renderCampaignResults (r : StoredResult) : CampaignRender :=
  match r.data.leads with
  | none => CampaignRender.noLeadsNotice
  | some l =>
      if l.length = 0 then CampaignRender.noLeadsNotice else CampaignRender.leadList l

/-- Number of lead cards a campaign render shows. -/
def campaignCardCount : CampaignRender → Nat
  | CampaignRender.noLeadsNotice => 0
  | CampaignRender.leadList l => l.length

/-- The three Tailwind text colors the score can take. -/
inductive ScoreColor
  | green
  | yellow
  | red
deriving DecidableEq, Repr

/-- JS `x >= n` where `x` may be `undefined` (optional chaining): comparison
with `undefined` is false. -/
def jsGe : Option Int → Int → Bool
  | some s, n => decide (n ≤ s)
  | none, _ => false

/-- `const isYes = verdict?.recommendation === "YES"`. -/
def verdictIsYes : Option Verdict → Bool
  | some v => decide (v.recommendation = some "YES")
  | none => false

/-- The nested conditional choosing the score color class. -/
def scoreColorOf (score : Option Int) : ScoreColor :=
  if jsGe score 60 then ScoreColor.green
  else if jsGe score 35 then ScoreColor.yellow
  else ScoreColor.red

/-- `const scoreColor = verdict?.score >= 60 ? ... : (verdict?.score >= 35 ? ... : ...)`. -/
def verdictScoreColor (v : Option Verdict) : ScoreColor :=
  scoreColorOf (v.bind Verdict.score)

/-- Abstract description of the deep-analysis render: whether the verdict
banner uses the YES styling, the score color, and the raw values shown. -/
structure DeepRender where
  yesStyled : Bool
  color : ScoreColor
  shownRecommendation : Option String
  shownScore : Option Int
deriving DecidableEq, Repr

/-- `renderSingleDomainResults`: returns `null` when `company_dossier` is
missing; otherwise renders the verdict banner styled by `isYes` and the score
colored by `scoreColor`. -/
def renderSingleDomainResults (r : StoredResult) : Option DeepRender :=
  match r.data.company_dossier with
  | none => none
  | some _ =>
      some { yesStyled := verdictIsYes r.data.verdict
             color := verdictScoreColor r.data.verdict
             shownRecommendation := r.data.verdict.bind Verdict.recommendation
             shownScore := r.data.verdict.bind Verdict.score }

/-- The user-interface events that can change the component state: the mode
switcher buttons, the domain text input, choosing an option of the category
select (the select renders exactly the `SERVICE_CATEGORIES` entries, so a
change event carries an index into that list), a form submission, and a
draft-email button press. -/
inductive UIEvent
  | switchMode (m : Mode)
  | editDomain (d : String)
  | selectCategory (i : Fin SERVICE_CATEGORIES.length)
  | submit (outcome : HttpOutcome)
  | generateEmail (lead : Lead) (index : Nat) (outcome : EmailOutcome)

/-- One state transition of the component. -/
def stepEvent (s : AppState) : UIEvent → AppState
  | UIEvent.switchMode m => { s with mode := m }
  | UIEvent.editDomain d => { s with domain := d }
  | UIEvent.selectCategory i => { s with serviceCategory := SERVICE_CATEGORIES.get i }
  | UIEvent.submit o => (handleSubmit s o).1
  | UIEvent.generateEmail l i o => (handleGenerateEmail s l i o).1

/-- Run a sequence of UI events from a state. -/
def runEvents (s : AppState) (es : List UIEvent) : AppState :=
  es.foldl stepEvent s

/-- A search-result candidate of the backend pipeline. -/
structure Candidate where
  name : String
  domain : String
  snippet : String
deriving DecidableEq, Repr

/-- Modelled from the spec: the backend pipeline sources (`fast_app.py`,
`agents.py`) are not under `src/`.  Per spec §4.3 a candidate is dropped iff
its domain exactly matches a blocklist entry, or a known enterprise name
fragment occurs in its domain, or an optional heuristic fires on its snippet;
the three rules are checked in this order, short-circuiting. -/
def isBlocked (blocklist fragments : List String) (snippetSignal : String → Bool)
    (c : Candidate) : Bool :=
  decide (c.domain ∈ blocklist)
    || fragments.any (fun f => decide (1 < (c.domain.splitOn f).length))
    || snippetSignal c.snippet

/-- Modelled from the spec (§4.3): EnterpriseGuard keeps, in order and
unmutated, exactly the candidates no blocklist rule matches. -/
def enterpriseGuard (blocklist fragments : List String) (snippetSignal : String → Bool)
    (cands : List Candidate) : List Candidate :=
  cands.filter (fun c => !(isBlocked blocklist fragments snippetSignal c))

/-- Modelled from the spec (§4.4): LeadSynthesizer sends the surviving
candidates to the language model, whose reply is an arbitrary list of leads;
any lead whose domain is not among the input candidate domains is discarded
(anti-hallucination check). -/
def leadSynthesizer (cands : List Candidate) (llmLeads : List Lead) : List Lead :=
  llmLeads.filter (fun l => decide (l.domain ∈ cands.map Candidate.domain))

/-- Modelled from the spec (§2, §4.6): the campaign pipeline feeds the
normalized candidates through EnterpriseGuard and then LeadSynthesizer. -/
def pipelineLeads (blocklist fragments : List String) (snippetSignal : String → Bool)
    (cands : List Candidate) (llmLeads : List Lead) : List Lead :=
  leadSynthesizer (enterpriseGuard blocklist fragments snippetSignal cands) llmLeads

/-! ### Concrete sample data used to instantiate theorems with hypotheses -/

/-- A sample lead. -/
def demoLead : Lead :=
  { name := "Tiny DevOps", domain := "tinydevops.io", why_we_help := "They are scaling fast." }

/-- A sample successful campaign response. -/
def demoResponse : ResponseData :=
  { agent_trace := ["Scouting the web for signals...", "Filtering enterprises...", "1 leads found"]
    leads := some [demoLead]
    company_dossier := none
    strategic_analysis := none
    verdict := none
    outreach_strategy := none }

/-- A sample campaign response with zero leads. -/
def demoEmptyResponse : ResponseData :=
  { agent_trace := ["Scouting the web for signals...", "0 leads found"]
    leads := some []
    company_dossier := none
    strategic_analysis := none
    verdict := none
    outreach_strategy := none }

/-- A sample dossier for a deep-analysis response. -/
def demoDossier : Dossier :=
  { title := some "Tiny DevOps"
    domain := some "tinydevops.io"
    industry := some "DevOps tooling"
    summary := some "A small infrastructure automation startup."
    estimated_tech_stack := some ["AWS", "Terraform"]
    company_stage := some "Seed"
    company_size := some "11-50"
    analysis_timestamp := some "2026-10-11T00:00:00Z" }

/-- A sample verdict for a deep-analysis response. -/
def demoVerdict : Verdict :=
  { recommendation := some "YES"
    score := some 72
    justification := some "Strong ICP fit."
    size_flag := some "SMB" }

/-- A sample successful deep-analysis response. -/
def demoDeepResponse : ResponseData :=
  { agent_trace := ["Fetching site...", "Analyzing..."]
    leads := none
    company_dossier := some demoDossier
    strategic_analysis := none
    verdict := some demoVerdict
    outreach_strategy := none }

/-- A state in single mode whose domain input holds only whitespace. -/
def demoSingleState : AppState :=
  { initialState with mode := Mode.single, domain := "   " }

/-- A state that already holds a drafted email for lead index 1. -/
def demoEmailState : AppState :=
  { initialState with emails := fun k => if k = 1 then some "old body" else none }

/-- A sample event sequence: the user picks the third category option. -/
def demoEvents : List UIEvent :=
  [UIEvent.selectCategory ⟨2, by decide⟩]

/-- A sample blocklist. -/
def demoBlocklist : List String := ["bigcorp.com"]

/-- Sample normalized candidates, one blocklisted. -/
def demoCandidates : List Candidate :=
  [{ name := "BigCorp", domain := "bigcorp.com", snippet := "Fortune 500 leader" },
   { name := "Tiny DevOps", domain := "tinydevops.io", snippet := "small team hiring" }]

/-- A sample language-model reply that hallucinates the blocklisted domain. -/
def demoLlmLeads : List Lead :=
  [{ name := "BigCorp", domain := "bigcorp.com", why_we_help := "x" }, demoLead]

/-! ### Helper lemmas -/

/-- `handleSubmit` never changes the selected category. -/
theorem handleSubmit_fst_serviceCategory (s : AppState) (o : HttpOutcome) :
    (handleSubmit s o).1.serviceCategory = s.serviceCategory := by
  unfold handleSubmit
  cases o <;> split <;> rfl

/-- `handleGenerateEmail` never changes the selected category. -/
theorem handleGenerateEmail_fst_serviceCategory (s : AppState) (lead : Lead)
    (index : Nat) (o : EmailOutcome) :
    (handleGenerateEmail s lead index o).1.serviceCategory = s.serviceCategory := by
  cases o <;> rfl

/-- Along any event sequence, the selected category stays inside
`SERVICE_CATEGORIES` once it is there. -/
theorem runEvents_serviceCategory_mem (s : AppState) (es : List UIEvent)
    (hs : s.serviceCategory ∈ SERVICE_CATEGORIES) :
    (runEvents s es).serviceCategory ∈ SERVICE_CATEGORIES := by
  induction es generalizing s with
  | nil => exact hs
  | cons e rest ih =>
      apply ih
      cases e with
      | switchMode m => exact hs
      | editDomain d => exact hs
      | selectCategory i => exact SERVICE_CATEGORIES.get_mem i.val i.isLt
      | submit o => rw [stepEvent, handleSubmit_fst_serviceCategory]; exact hs
      | generateEmail l i o => rw [stepEvent, handleGenerateEmail_fst_serviceCategory]; exact hs

/-- From the initial state, the selected category is always a member of
`SERVICE_CATEGORIES`. -/
theorem initial_runEvents_serviceCategory_mem (es : List UIEvent) :
    (runEvents initialState es).serviceCategory ∈ SERVICE_CATEGORIES :=
  runEvents_serviceCategory_mem initialState es (by decide)

/-- The score-color conditional, characterised for a present score. -/
theorem scoreColorOf_some_char (sc : Int) :
    (scoreColorOf (some sc) = ScoreColor.green ↔ 60 ≤ sc)
      ∧ (scoreColorOf (some sc) = ScoreColor.yellow ↔ 35 ≤ sc ∧ sc < 60)
      ∧ (scoreColorOf (some sc) = ScoreColor.red ↔ sc < 35) := by
  unfold scoreColorOf jsGe
  rcases le_or_lt 60 sc with h60 | h60
  · refine ⟨?_, ?_, ?_⟩ <;> simp [h60] <;> omega
  · have h60' : ¬ ((60 : Int) ≤ sc) := not_le.mpr h60
    rcases le_or_lt 35 sc with h35 | h35
    · refine ⟨?_, ?_, ?_⟩ <;> simp [h60', h35] <;> omega
    · have h35' : ¬ ((35 : Int) ≤ sc) := not_le.mpr h35
      refine ⟨?_, ?_, ?_⟩ <;> simp [h60', h35'] <;> omega

/-! ### Claim theorems -/

/-- Claim C1: for every pipeline run and every candidate domain `d` that
exactly equals a blocklist entry, `d` is absent from the EnterpriseGuard
output (so no such candidate reaches LeadSynthesizer) and `d` never appears
among the domains of the pipeline's output leads. -/
theorem blocklisted_domain_never_in_output
    (blocklist fragments : List String) (snippetSignal : String → Bool)
    (cands : List Candidate) (llmLeads : List Lead) (d : String)
    (hd : d ∈ blocklist) :
    d ∉ (enterpriseGuard blocklist fragments snippetSignal cands).map Candidate.domain
      ∧ d ∉ (pipelineLeads blocklist fragments snippetSignal cands llmLeads).map Lead.domain := by
  have hguard :
      d ∉ (enterpriseGuard blocklist fragments snippetSignal cands).map Candidate.domain := by
    intro hmem
    obtain ⟨c, hc, hcd⟩ := List.mem_map.1 hmem
    have hkeep := (List.mem_filter.1 hc).2
    have hblocked : isBlocked blocklist fragments snippetSignal c = false := by
      simpa using hkeep
    have hnotin : c.domain ∉ blocklist := by
      unfold isBlocked at hblocked
      simp only [Bool.or_eq_false_iff, decide_eq_false_iff_not] at hblocked
      exact hblocked.1.1
    exact hnotin (hcd ▸ hd)
  refine ⟨hguard, ?_⟩
  intro hmem
  obtain ⟨l, hl, hld⟩ := List.mem_map.1 hmem
  have hkeep := (List.mem_filter.1 hl).2
  rw [decide_eq_true_eq] at hkeep
  exact hguard (hld ▸ hkeep)

/-- Witness for C1 at a concrete run: `bigcorp.com` is blocklisted, survives
neither the guard nor the full pipeline, even though the language model
returned a lead for it. -/
theorem blocklisted_domain_never_in_output_witness :
    "bigcorp.com" ∈ demoBlocklist
      ∧ ("bigcorp.com"
            ∉ (enterpriseGuard demoBlocklist [] (fun _ => false) demoCandidates).map
                Candidate.domain
          ∧ "bigcorp.com"
              ∉ (pipelineLeads demoBlocklist [] (fun _ => false) demoCandidates
                  demoLlmLeads).map Lead.domain) :=
  ⟨by decide,
   blocklisted_domain_never_in_output demoBlocklist [] (fun _ => false) demoCandidates
     demoLlmLeads "bigcorp.com" (by decide)⟩

/-- Claim C2: on a successful response (so the submission passed validation),
the final displayed trace is the reset entry followed by the response's
`agent_trace`, element for element and in order; in particular the displayed
trace ends with exactly the `agent_trace` sequence. -/
theorem submit_success_trace_appends_agent_trace (s : AppState) (data : ResponseData)
    (h : validationFails s = false) :
    (handleSubmit s (HttpOutcome.success data)).1.trace = [initTraceMsg] ++ data.agent_trace
      ∧ List.IsSuffix data.agent_trace
          (handleSubmit s (HttpOutcome.success data)).1.trace := by
  have htr : (handleSubmit s (HttpOutcome.success data)).1.trace
      = [initTraceMsg] ++ data.agent_trace := by
    simp [handleSubmit, h]
  exact ⟨htr, ⟨[initTraceMsg], htr.symm⟩⟩

/-- Witness for C2 on the initial state and a concrete campaign response. -/
theorem submit_success_trace_appends_agent_trace_witness :
    validationFails initialState = false
      ∧ ((handleSubmit initialState (HttpOutcome.success demoResponse)).1.trace
            = [initTraceMsg] ++ demoResponse.agent_trace
          ∧ List.IsSuffix demoResponse.agent_trace
              (handleSubmit initialState (HttpOutcome.success demoResponse)).1.trace) :=
  ⟨by decide, submit_success_trace_appends_agent_trace initialState demoResponse (by decide)⟩

/-- Claim C3: any campaign-mode submission posts `/analyze` carrying the
currently selected category, and after any event history starting at the
initial state that category is one of the four `SERVICE_CATEGORIES` (it is
initialized to "Application Development" and can only be changed by picking
an option of the rendered list). -/
theorem campaign_request_category_enumerated (es : List UIEvent) (outcome : HttpOutcome)
    (h : (runEvents initialState es).mode = Mode.campaign) :
    (handleSubmit (runEvents initialState es) outcome).2
        = some (ApiRequest.analyze (runEvents initialState es).serviceCategory)
      ∧ (runEvents initialState es).serviceCategory ∈ SERVICE_CATEGORIES := by
  refine ⟨?_, initial_runEvents_serviceCategory_mem es⟩
  have hv : validationFails (runEvents initialState es) = false := by
    simp [validationFails, h]
  cases outcome <;> simp [handleSubmit, hv, buildSubmitRequest, h]

/-- Witness for C3: the user picks the third category option, then submits. -/
theorem campaign_request_category_enumerated_witness :
    (runEvents initialState demoEvents).mode = Mode.campaign
      ∧ ((handleSubmit (runEvents initialState demoEvents)
              (HttpOutcome.success demoResponse)).2
            = some (ApiRequest.analyze (runEvents initialState demoEvents).serviceCategory)
          ∧ (runEvents initialState demoEvents).serviceCategory ∈ SERVICE_CATEGORIES) :=
  ⟨rfl, campaign_request_category_enumerated demoEvents (HttpOutcome.success demoResponse) rfl⟩

/-- Claim C4: in single mode with an empty or whitespace-only domain,
`handleSubmit` sets the validation error message and returns with no HTTP
request issued, leaving `loading`, `result` and `trace` unchanged. -/
theorem single_empty_domain_rejected (s : AppState) (o : HttpOutcome)
    (hm : s.mode = Mode.single) (hd : jsTrim s.domain = "") :
    (handleSubmit s o).2 = none
      ∧ (handleSubmit s o).1.error = some domainValidationMsg
      ∧ (handleSubmit s o).1.loading = s.loading
      ∧ (handleSubmit s o).1.result = s.result
      ∧ (handleSubmit s o).1.trace = s.trace := by
  have hv : validationFails s = true := by simp [validationFails, hm, hd]
  cases o <;> simp [handleSubmit, hv]

/-- Witness for C4 on a concrete single-mode state with a whitespace domain. -/
theorem single_empty_domain_rejected_witness :
    demoSingleState.mode = Mode.single
      ∧ jsTrim demoSingleState.domain = ""
      ∧ ((handleSubmit demoSingleState (HttpOutcome.failure none)).2 = none
          ∧ (handleSubmit demoSingleState (HttpOutcome.failure none)).1.error
              = some domainValidationMsg
          ∧ (handleSubmit demoSingleState (HttpOutcome.failure none)).1.loading
              = demoSingleState.loading
          ∧ (handleSubmit demoSingleState (HttpOutcome.failure none)).1.result
              = demoSingleState.result
          ∧ (handleSubmit demoSingleState (HttpOutcome.failure none)).1.trace
              = demoSingleState.trace) :=
  ⟨rfl, by decide,
   single_empty_domain_rejected demoSingleState (HttpOutcome.failure none) rfl (by decide)⟩

/-- Claim C5: the generate-email request body holds exactly the four fields
`company_name = lead.name`, `domain = lead.domain`,
`why_we_help = lead.why_we_help` and `service_category` equal to the selected
category, and on success the stored email for that index becomes the
response's `email_body`. -/
theorem generate_email_request_and_success (s : AppState) (lead : Lead) (i : Nat)
    (body subj : String) :
    (handleGenerateEmail s lead i (EmailOutcome.success body subj)).2
        = { company_name := lead.name, domain := lead.domain,
            why_we_help := lead.why_we_help, service_category := s.serviceCategory }
      ∧ (handleGenerateEmail s lead i (EmailOutcome.success body subj)).1.emails i
          = some body := by
  constructor
  · rfl
  · simp [handleGenerateEmail]

/-- Claim C6: generating (or regenerating) an email for lead index `i`
updates only the `emails` and `emailLoading` entries at key `i`: for every
`j ≠ i` both maps are unchanged at `j`, and `result` (hence the displayed
leads), `trace` and `error` are unchanged, for either call outcome. -/
theorem generate_email_frame (s : AppState) (lead : Lead) (i : Nat) (o : EmailOutcome)
    (j : Nat) (hj : j ≠ i) :
    (handleGenerateEmail s lead i o).1.emails j = s.emails j
      ∧ (handleGenerateEmail s lead i o).1.emailLoading j = s.emailLoading j
      ∧ (handleGenerateEmail s lead i o).1.result = s.result
      ∧ (handleGenerateEmail s lead i o).1.trace = s.trace
      ∧ (handleGenerateEmail s lead i o).1.error = s.error := by
  cases o <;> simp [handleGenerateEmail, hj]

/-- Witness for C6: drafting an email for index 0 leaves the existing email
at index 1 and the rest of the state alone. -/
theorem generate_email_frame_witness :
    (1 : Nat) ≠ 0
      ∧ ((handleGenerateEmail demoEmailState demoLead 0
              (EmailOutcome.success "new body" "subj")).1.emails 1
            = demoEmailState.emails 1
          ∧ (handleGenerateEmail demoEmailState demoLead 0
                (EmailOutcome.success "new body" "subj")).1.emailLoading 1
              = demoEmailState.emailLoading 1
          ∧ (handleGenerateEmail demoEmailState demoLead 0
                (EmailOutcome.success "new body" "subj")).1.result
              = demoEmailState.result
          ∧ (handleGenerateEmail demoEmailState demoLead 0
                (EmailOutcome.success "new body" "subj")).1.trace
              = demoEmailState.trace
          ∧ (handleGenerateEmail demoEmailState demoLead 0
                (EmailOutcome.success "new body" "subj")).1.error
              = demoEmailState.error) :=
  ⟨by decide,
   generate_email_frame demoEmailState demoLead 0
     (EmailOutcome.success "new body" "subj") 1 (by decide)⟩

/-- Claim C7: a campaign response whose `leads` field is missing or empty
renders the no-leads notice and zero lead cards, and is treated as a success:
the error state stays null and the response is stored as the result. -/
theorem empty_leads_notice_no_error (s : AppState) (data : ResponseData) (m : Mode)
    (hleads : data.leads = none ∨ data.leads = some [])
    (hv : validationFails s = false) :
    renderCampaignResults { data := data, mode := m } = CampaignRender.noLeadsNotice
      ∧ campaignCardCount (renderCampaignResults { data := data, mode := m }) = 0
      ∧ (handleSubmit s (HttpOutcome.success data)).1.error = none
      ∧ (handleSubmit s (HttpOutcome.success data)).1.result
          = some { data := data, mode := s.mode } := by
  have hr : renderCampaignResults { data := data, mode := m }
      = CampaignRender.noLeadsNotice := by
    rcases hleads with h | h <;> simp [renderCampaignResults, h]
  refine ⟨hr, by rw [hr]; rfl, ?_, ?_⟩ <;> simp [handleSubmit, hv]

/-- Witness for C7 on a concrete zero-lead response. -/
theorem empty_leads_notice_no_error_witness :
    (demoEmptyResponse.leads = none ∨ demoEmptyResponse.leads = some [])
      ∧ validationFails initialState = false
      ∧ (renderCampaignResults { data := demoEmptyResponse, mode := Mode.campaign }
            = CampaignRender.noLeadsNotice
          ∧ campaignCardCount
              (renderCampaignResults { data := demoEmptyResponse, mode := Mode.campaign }) = 0
          ∧ (handleSubmit initialState (HttpOutcome.success demoEmptyResponse)).1.error = none
          ∧ (handleSubmit initialState (HttpOutcome.success demoEmptyResponse)).1.result
              = some { data := demoEmptyResponse, mode := initialState.mode }) :=
  ⟨Or.inr rfl, by decide,
   empty_leads_notice_no_error initialState demoEmptyResponse Mode.campaign
     (Or.inr rfl) (by decide)⟩

/-- Claim C8: for every submission that passes input validation, whatever the
request outcome, the first element of the displayed trace is the reset entry
"Initializing autonomous intelligence engine...". -/
theorem trace_starts_with_init (s : AppState) (o : HttpOutcome)
    (hv : validationFails s = false) :
    ((handleSubmit s o).1.trace).head? = some initTraceMsg := by
  cases o <;> simp [handleSubmit, hv]

/-- Witness for C8 on the initial state with a failing request. -/
theorem trace_starts_with_init_witness :
    validationFails initialState = false
      ∧ ((handleSubmit initialState (HttpOutcome.failure none)).1.trace).head?
          = some initTraceMsg :=
  ⟨by decide, trace_starts_with_init initialState (HttpOutcome.failure none) (by decide)⟩

/-- Claim C9: after a validated submission completes, `loading` is false and
at most one of `result`/`error` is non-null: a success leaves `error` null
and a failure leaves `result` null. -/
theorem submit_terminal_state_consistent (s : AppState) (o : HttpOutcome)
    (hv : validationFails s = false) :
    (handleSubmit s o).1.loading = false
      ∧ ¬((handleSubmit s o).1.result.isSome ∧ (handleSubmit s o).1.error.isSome)
      ∧ (∀ data, o = HttpOutcome.success data → (handleSubmit s o).1.error = none)
      ∧ (∀ detail, o = HttpOutcome.failure detail → (handleSubmit s o).1.result = none) := by
  cases o <;> simp [handleSubmit, hv]

/-- Witness for C9 on the initial state with a failing request. -/
theorem submit_terminal_state_consistent_witness :
    validationFails initialState = false
      ∧ ((handleSubmit initialState (HttpOutcome.failure none)).1.loading = false
          ∧ ¬((handleSubmit initialState (HttpOutcome.failure none)).1.result.isSome
              ∧ (handleSubmit initialState (HttpOutcome.failure none)).1.error.isSome)
          ∧ (∀ data, HttpOutcome.failure none = HttpOutcome.success data →
              (handleSubmit initialState (HttpOutcome.failure none)).1.error = none)
          ∧ (∀ detail, HttpOutcome.failure none = HttpOutcome.failure detail →
              (handleSubmit initialState (HttpOutcome.failure none)).1.result = none)) :=
  ⟨by decide,
   submit_terminal_state_consistent initialState (HttpOutcome.failure none) (by decide)⟩

/-- Claim C10: when the dossier is present the deep-analysis render exists;
its banner uses the YES styling iff `verdict?.recommendation` is exactly
"YES" (anything else, including a missing recommendation, gives the NO
styling), and for a present score the color is green iff `score >= 60`,
yellow iff `35 <= score < 60`, and red otherwise. -/
theorem deep_render_verdict_banner_and_score_color (data : ResponseData) (m : Mode)
    (dos : Dossier) (hdos : data.company_dossier = some dos) :
    ∃ r, renderSingleDomainResults { data := data, mode := m } = some r
      ∧ (r.yesStyled = true ↔ data.verdict.bind Verdict.recommendation = some "YES")
      ∧ ∀ v sc, data.verdict = some v → v.score = some sc →
          ((r.color = ScoreColor.green ↔ 60 ≤ sc)
            ∧ (r.color = ScoreColor.yellow ↔ 35 ≤ sc ∧ sc < 60)
            ∧ (r.color = ScoreColor.red ↔ sc < 35)) := by
  refine ⟨{ yesStyled := verdictIsYes data.verdict
            color := verdictScoreColor data.verdict
            shownRecommendation := data.verdict.bind Verdict.recommendation
            shownScore := data.verdict.bind Verdict.score }, ?_, ?_, ?_⟩
  · simp [renderSingleDomainResults, hdos]
  · cases hv2 : data.verdict with
    | none => simp [verdictIsYes]
    | some v => simp [verdictIsYes]
  · intro v sc hveq hsc
    have hcol : verdictScoreColor data.verdict = scoreColorOf (some sc) := by
      rw [hveq]
      simp [verdictScoreColor, hsc]
    dsimp only
    rw [hcol]
    exact scoreColorOf_some_char sc

/-- Witness for C10 on a concrete deep-analysis response with a YES verdict
and score 72. -/
theorem deep_render_verdict_banner_witness :
    demoDeepResponse.company_dossier = some demoDossier
      ∧ ∃ r, renderSingleDomainResults { data := demoDeepResponse, mode := Mode.single } = some r
          ∧ (r.yesStyled = true
              ↔ demoDeepResponse.verdict.bind Verdict.recommendation = some "YES")
          ∧ ∀ v sc, demoDeepResponse.verdict = some v → v.score = some sc →
              ((r.color = ScoreColor.green ↔ 60 ≤ sc)
                ∧ (r.color = ScoreColor.yellow ↔ 35 ≤ sc ∧ sc < 60)
                ∧ (r.color = ScoreColor.red ↔ sc < 35)) :=
  ⟨rfl,
   deep_render_verdict_banner_and_score_color demoDeepResponse Mode.single demoDossier rfl⟩

end DataVex
